import Mathlib

/-!
MentOS directory dispatch: `opendir` and `closedir`.

A shallow embedding of `mentos/src/sys/dirent.c`.

* C strings are Lean `String`s, their length in bytes is `String.utf8ByteSize`.
  A `char` buffer is modelled by the string it holds. The buffer
  `absolute_path` of `opendir` has `PATH_MAX` bytes: a string fits when its
  length is below `PATH_MAX` (one byte is the terminating NUL), and writing a
  longer one into the buffer is undefined.
* Pointers are addresses (`Nat`), the null pointer is address `0`.  This holds
  for pointers to `DIR` objects and for function pointers alike.
* The kernel globals touched by the code (`mountpoint_list`, the memory that
  holds `DIR` objects) form the `World`.  Backend routines are arbitrary
  functions on the `World`.
* Everything the dispatch layer does to its surroundings (calls of external
  routines, reads of `mountpoint_list`, lines written with `printf` or
  `dbg_print`) is appended to a trace, in program order.
* Behaviour that C leaves undefined (writing past the end of
  `absolute_path`, indexing `mountpoint_list` out of bounds, dereferencing a
  pointer that holds no `DIR`) is the outcome `Outcome.undefined`.
-/

namespace MentOS

/-- An address. Address `0` is the null pointer. -/
abbrev Ptr := Nat

/-- The null pointer of C. -/
def NULL : Ptr := 0

/-- Modelled from the spec: the `DIR` structure of `dirent.h` (the header is absent).
The source uses the fields `fd` and `path`; `cursor` stands for the
backend-private remainder of the structure. -/
structure DIR where
  fd : Int
  path : String
  cursor : Nat
deriving DecidableEq

/-- Modelled from the spec: the directory operation table of a mount record
(`vfs.h` is absent). Each field is a function pointer, `NULL` when the backend
has no such routine. -/
structure dir_op_t where
  opendir_f : Ptr
  closedir_f : Ptr
deriving DecidableEq

/-- Modelled from the spec: a mount record (`vfs.h` is absent): the mount path
and the operation table. The identifier of a record is its index in
`mountpoint_list`. -/
structure mountpoint_t where
  mountpoint : String
  dir_op : dir_op_t
deriving DecidableEq

/-- The kernel memory the dispatch layer and the backends work on. The `DIR`
object at address `p` (with `p ≠ 0`) is `heap[p - 1]`; `none` is a slot that
holds no live object. -/
structure World where
  mountpoint_list : List mountpoint_t
  heap : List (Option DIR)
deriving DecidableEq

/-- One observable action of the dispatch layer. `printf line` and
`dbg_print line` carry the text the source hands to the sink, with `%s`
filled in; `dbg_print` is a construct of `debug.h` (absent), so what the debug
output adds around that text is not modelled. -/
inductive Event where
  | call_get_absolute_path (buf : String)
  | call_get_mountpoint_id (path : String)
  | read_mountpoint (index : Int)
  | call_opendir_f (fn : Ptr) (path : String)
  | call_closedir_f (fn : Ptr) (dirp : Ptr)
  | printf (line : String)
  | dbg_print (line : String)
deriving DecidableEq

/-- Machine state: the memory and the trace of actions so far. -/
structure State where
  world : World
  trace : List Event
deriving DecidableEq

/-- Result of running a routine: it returns a value in a new state, or its
behaviour is undefined in C. -/
inductive Outcome (α : Type) where
  | ret (value : α) (st : State)
  | undefined
deriving DecidableEq

/-- What `dirent.c` uses but does not define.
`PATH_MAX` is the constant of that name (its header is absent).
`get_absolute_path buf` is `none` when the C routine returns `0`, and
`some p` when it succeeds writing `p` into the buffer.
`opendir_code fn` and `closedir_code fn` are the routines that the function
pointer `fn` points to. -/
structure Env where
  PATH_MAX : Nat
  get_absolute_path : World → String → Option String
  get_mountpoint_id : World → String → Int
  opendir_code : Ptr → String → World → Ptr × World
  closedir_code : Ptr → Ptr → World → Int × World

/-- The byte `s[0]` of a C string; the terminating NUL for the empty string. -/
def char0 (s : String) : Char :=
  s.data.headD (Char.ofNat 0)

/-- The element `mountpoint_list[i]`; `none` when `i` is out of bounds. -/
def mountpoint_at (w : World) (i : Int) : Option mountpoint_t :=
  if 0 ≤ i then w.mountpoint_list[i.toNat]? else none

/-- The object `*p`; `none` when `p` holds no live `DIR`. -/
def load (w : World) (p : Ptr) : Option DIR :=
  if p = NULL then none else (w.heap[p - 1]?).join

/-- The memory after `*p = d`. -/
def store (w : World) (p : Ptr) (d : DIR) : World :=
  { w with heap := w.heap.set (p - 1) (some d) }

/-- Append actions to the trace. -/
def State.emit (s : State) (evs : List Event) : State :=
  { s with trace := s.trace ++ evs }

/-- Line printed by `opendir` when no mount matches. -/
def msg_no_mount (absolute_path : String) : String :=
  "opendir: cannot open directory '" ++ absolute_path ++ "':" ++ "Cannot find mount-point\n"

/-- Line printed by `opendir` when the backend has no open routine. -/
def msg_no_opendir (absolute_path : String) : String :=
  "opendir: cannot open directory '" ++ absolute_path ++ "':" ++ "No opendir function\n"

/-- Line sent to the debug output by `opendir` when the resolver fails. -/
def msg_no_absolute : String :=
  "Cannot get the absolute path.\n"

/-- Line printed by `closedir` for a null handle. -/
def msg_bad_dirp : String :=
  "closedir: cannot close directory :" ++ "Directory pointer is not valid\n"

/-- Line printed by `closedir` when the backend has no close routine. -/
def msg_no_closedir (path : String) : String :=
  "closedir: cannot close directory '" ++ path ++ "':" ++ "No closedir function\n"

/-- The first block of `opendir` (lines 20-31): `strcpy` the argument into the
buffer `absolute_path[PATH_MAX]` and, when it does not start with `/`, let
`get_absolute_path` rewrite the buffer. The value is the content of the buffer,
`none` when the resolver failed. Undefined when the argument, or what the
resolver writes, does not fit in the buffer. -/
def opendir_resolve (env : Env) (path : String) (s : State) : Outcome (Option String) :=
  if env.PATH_MAX ≤ path.utf8ByteSize then
    .undefined
  else
    let absolute_path := path
    if char0 absolute_path ≠ '/' then
      match env.get_absolute_path s.world absolute_path with
      | none => .ret none (s.emit [.call_get_absolute_path absolute_path])
      | some resolved =>
        if env.PATH_MAX ≤ resolved.utf8ByteSize then
          .undefined
        else
          .ret (some resolved) (s.emit [.call_get_absolute_path absolute_path])
    else
      .ret (some absolute_path) s

/-- The function `opendir` of `dirent.c`. -/
def opendir (env : Env) (path : String) (s : State) : Outcome Ptr :=
  match opendir_resolve env path s with
  | .undefined => .undefined
  | .ret none s1 => .ret NULL (s1.emit [.dbg_print msg_no_absolute])
  | .ret (some absolute_path) s1 =>
    let mp_id := env.get_mountpoint_id s1.world absolute_path
    let s2 := s1.emit [.call_get_mountpoint_id absolute_path]
    if mp_id < 0 then
      .ret NULL (s2.emit [.printf (msg_no_mount absolute_path)])
    else
      match mountpoint_at s2.world mp_id with
      | none => .undefined
      | some mp =>
        if mp.dir_op.opendir_f = NULL then
          .ret NULL (s2.emit [.read_mountpoint mp_id, .printf (msg_no_opendir absolute_path)])
        else
          let r := env.opendir_code mp.dir_op.opendir_f absolute_path s2.world
          let pdir := r.1
          let tr := s2.trace ++ [.read_mountpoint mp_id, .read_mountpoint mp_id,
            .call_opendir_f mp.dir_op.opendir_f absolute_path]
          if pdir ≠ NULL then
            match load r.2 pdir with
            | none => .undefined
            | some d => .ret pdir { world := store r.2 pdir { d with fd := mp_id }, trace := tr }
          else
            .ret pdir { world := r.2, trace := tr }

/-- The function `closedir` of `dirent.c`. -/
def closedir (env : Env) (dirp : Ptr) (s : State) : Outcome Int :=
  if dirp = NULL then
    .ret (-1) (s.emit [.printf msg_bad_dirp])
  else
    match load s.world dirp with
    | none => .undefined
    | some d =>
      match mountpoint_at s.world d.fd with
      | none => .undefined
      | some mp =>
        if mp.dir_op.closedir_f = NULL then
          .ret (-1) (s.emit [.read_mountpoint d.fd, .printf (msg_no_closedir d.path)])
        else
          let r := env.closedir_code mp.dir_op.closedir_f dirp s.world
          .ret r.1 { world := r.2, trace := s.trace ++ [.read_mountpoint d.fd,
            .read_mountpoint d.fd, .call_closedir_f mp.dir_op.closedir_f dirp] }

/-! ## Classifying the trace -/

/-- Calls of backend routines through a function pointer of the mount table. -/
def Event.is_backend_call : Event → Bool
  | .call_opendir_f _ _ => true
  | .call_closedir_f _ _ => true
  | _ => false

/-- Reads of an element of `mountpoint_list`. -/
def Event.is_table_read : Event → Bool
  | .read_mountpoint _ => true
  | _ => false

/-- Calls of the mount lookup `get_mountpoint_id`. -/
def Event.is_lookup : Event → Bool
  | .call_get_mountpoint_id _ => true
  | _ => false

/-- Calls of the working-directory resolver `get_absolute_path`. -/
def Event.is_resolver_call : Event → Bool
  | .call_get_absolute_path _ => true
  | _ => false

/-- Lines written to the diagnostics sink (`printf` or `dbg_print`). -/
def Event.is_diagnostic : Event → Bool
  | .printf _ => true
  | .dbg_print _ => true
  | _ => false

/-- The canonical path `opendir` computes for `path`: `path` itself when it
starts with `/`, otherwise what the resolver leaves in the buffer. -/
def canonical (env : Env) (w : World) (path : String) : Option String :=
  if char0 path ≠ '/' then env.get_absolute_path w path else some path

/-- The resolver call `opendir` makes for `path`, if any. -/
def resolver_events (path : String) : List Event :=
  if char0 path ≠ '/' then [.call_get_absolute_path path] else []

/-! ## A concrete system, used to run the code -/

/-- Modelled from the spec: `get_mountpoint_id` of `vfs.c` (absent), as the
longest-prefix match over the mount table: `best` is the index and the length
of the longest matching mount path seen so far, `i` the index of the head of
`mounts`. Returns `-1` when no mount path is a match. -/
def longest_match (path : List Char) : List mountpoint_t → Nat → Option (Nat × Nat) → Int
  | [], _, none => -1
  | [], _, some (id, _) => (id : Int)
  | mp :: rest, i, best =>
    let mpl := mp.mountpoint.data.length
    if mp.mountpoint.data.isPrefixOf path then
      match best with
      | none => longest_match path rest (i + 1) (some (i, mpl))
      | some (id, last_mpl) =>
        if last_mpl < mpl then longest_match path rest (i + 1) (some (i, mpl))
        else longest_match path rest (i + 1) (some (id, last_mpl))
    else longest_match path rest (i + 1) best

/-- Modelled from the spec: `get_mountpoint_id` of `vfs.c` (absent): the
identifier of the most specific (longest-prefix) matching mount record, or a
negative value when no mount matches. -/
def get_mountpoint_id_model (w : World) (path : String) : Int :=
  longest_match path.data w.mountpoint_list 0 none

/-- Modelled from the spec: `get_absolute_path` of `vfs.c` (absent), for a
process whose working directory is `/var`: the working directory is put in
front of the relative path. -/
def demo_get_absolute_path (_w : World) (buf : String) : Option String :=
  some ("/var/" ++ buf)

/-- Test backends, open routines: the routine at address `5` always fails; every other
one allocates a fresh handle for `path`, with `fd` not yet set. -/
def demo_opendir_code (fn : Ptr) (path : String) (w : World) : Ptr × World :=
  if fn = 5 then (NULL, w)
  else (w.heap.length + 1, { w with heap := w.heap ++ [some { fd := -1, path := path, cursor := fn }] })

/-- Test backends, close routines: the routine at address `6` fails with `-5` and
leaves the handle alone; every other one releases the handle and returns `0`. -/
def demo_closedir_code (fn : Ptr) (dirp : Ptr) (w : World) : Int × World :=
  if fn = 6 then (-5, w)
  else (0, { w with heap := w.heap.set (dirp - 1) none })

/-- The demo system: buffers of 4096 bytes, longest-prefix lookup, working
directory `/var`. -/
def demo_env : Env :=
  { PATH_MAX := 4096
    get_absolute_path := demo_get_absolute_path
    get_mountpoint_id := get_mountpoint_id_model
    opendir_code := demo_opendir_code
    closedir_code := demo_closedir_code }

/-- The demo system in a process whose working directory cannot be obtained. -/
def demo_env_no_cwd : Env :=
  { demo_env with get_absolute_path := fun _ _ => none }

/-- Mount table of the demo system: `/` is backend A (id 0), `/dev` is
backend B (id 1), `/proc` (id 2) has no directory routines, `/tmp` (id 3) has
routines that fail. -/
def demo_mounts : List mountpoint_t :=
  [ { mountpoint := "/", dir_op := { opendir_f := 1, closedir_f := 2 } },
    { mountpoint := "/dev", dir_op := { opendir_f := 3, closedir_f := 4 } },
    { mountpoint := "/proc", dir_op := { opendir_f := NULL, closedir_f := NULL } },
    { mountpoint := "/tmp", dir_op := { opendir_f := 5, closedir_f := 6 } } ]

/-- Initial state of the demo system: no open handle, empty trace. -/
def demo_init : State :=
  { world := { mountpoint_list := demo_mounts, heap := [] }, trace := [] }

/-- A demo state with one open handle at address `1`, owned by mount `fd`. -/
def demo_open (fd : Int) (path : String) : State :=
  { world := { mountpoint_list := demo_mounts, heap := [some { fd := fd, path := path, cursor := 0 }] },
    trace := [] }

/-- A system with no mount at all. -/
def empty_init : State :=
  { world := { mountpoint_list := [], heap := [] }, trace := [] }

/-- Mount table of the two-mount scenario: `/` is backend A (id 0, routines at
addresses 1 and 2), `/dev` is backend B (id 1, routines at addresses 3 and 4). -/
def scenario_mounts : List mountpoint_t :=
  [ { mountpoint := "/", dir_op := { opendir_f := 1, closedir_f := 2 } },
    { mountpoint := "/dev", dir_op := { opendir_f := 3, closedir_f := 4 } } ]

/-- Initial state of the two-mount scenario. -/
def scenario_init : State :=
  { world := { mountpoint_list := scenario_mounts, heap := [] }, trace := [] }

/-- State of the two-mount scenario after `opendir("/dev/console")`. -/
def scenario_opened : State :=
  { world := { mountpoint_list := scenario_mounts,
               heap := [some { fd := 1, path := "/dev/console", cursor := 3 }] },
    trace := [.call_get_mountpoint_id "/dev/console", .read_mountpoint 1, .read_mountpoint 1,
      .call_opendir_f 3 "/dev/console"] }

/-! ## `closedir` -/

/-- C1: for a non-null handle `dirp` holding a `DIR` whose `fd` selects a mount
record with a close routine, `closedir` performs exactly one backend call, the
call of that routine on `dirp` in the memory `closedir` was entered with, and
returns the integer the routine returned, whatever it is, together with the
memory the routine left. The dispatch layer prints nothing. -/
theorem closedir_forwards_backend_result (env : Env) (dirp : Ptr) (s : State)
    (d : DIR) (mp : mountpoint_t)
    (hp : dirp ≠ NULL) (hd : load s.world dirp = some d)
    (hm : mountpoint_at s.world d.fd = some mp) (hf : mp.dir_op.closedir_f ≠ NULL) :
    ∃ evs : List Event,
      closedir env dirp s =
        .ret (env.closedir_code mp.dir_op.closedir_f dirp s.world).1
          { world := (env.closedir_code mp.dir_op.closedir_f dirp s.world).2,
            trace := s.trace ++ evs } ∧
      evs.filter Event.is_backend_call = [.call_closedir_f mp.dir_op.closedir_f dirp] ∧
      evs.filter Event.is_diagnostic = [] := by
  refine ⟨[.read_mountpoint d.fd, .read_mountpoint d.fd,
    .call_closedir_f mp.dir_op.closedir_f dirp], ?_, ?_, ?_⟩
  · simp [closedir, hp, hd, hm, hf]
  · simp [Event.is_backend_call]
  · simp [Event.is_diagnostic]

/-- Witness for C1: closing a handle of the `/tmp` mount of the demo system,
whose close routine fails with `-5`; `closedir` returns `-5`. -/
theorem closedir_forwards_backend_result_witness :
    ((1 : Ptr) ≠ NULL ∧
      load (demo_open 3 "/tmp/x").world 1 = some { fd := 3, path := "/tmp/x", cursor := 0 } ∧
      mountpoint_at (demo_open 3 "/tmp/x").world 3 =
        some { mountpoint := "/tmp", dir_op := { opendir_f := 5, closedir_f := 6 } } ∧
      (6 : Ptr) ≠ NULL) ∧
    ∃ evs : List Event,
      closedir demo_env 1 (demo_open 3 "/tmp/x") =
        .ret (-5) { world := (demo_open 3 "/tmp/x").world, trace := [] ++ evs } ∧
      evs.filter Event.is_backend_call = [.call_closedir_f 6 1] ∧
      evs.filter Event.is_diagnostic = [] :=
  ⟨⟨by decide, rfl, rfl, by decide⟩,
    closedir_forwards_backend_result demo_env 1 (demo_open 3 "/tmp/x")
      { fd := 3, path := "/tmp/x", cursor := 0 }
      { mountpoint := "/tmp", dir_op := { opendir_f := 5, closedir_f := 6 } }
      (by decide) rfl rfl (by decide)⟩

/-- The line for a null handle differs from every line for a missing close
routine: they differ at the character after `directory `. -/
theorem msg_bad_dirp_ne_msg_no_closedir (path : String) :
    msg_bad_dirp ≠ msg_no_closedir path := by
  intro h
  have h2 := congrArg (fun t : String => t.data.get? 33) h
  simp [msg_bad_dirp, msg_no_closedir] at h2

/-- C5: `closedir` on the null pointer returns `-1` in every state, whatever
the mount table and the backends are. Its only action is one `printf` line:
it reads no element of `mountpoint_list` and calls no backend routine. The
line differs from the line printed for a missing close routine, whatever path
the latter names. -/
theorem closedir_null_fails (env : Env) (s : State) :
    closedir env NULL s =
        .ret (-1) { world := s.world, trace := s.trace ++ [.printf msg_bad_dirp] } ∧
      (-1 : Int) < 0 ∧
      [Event.printf msg_bad_dirp].filter Event.is_table_read = [] ∧
      [Event.printf msg_bad_dirp].filter Event.is_backend_call = [] ∧
      ∀ path : String, msg_bad_dirp ≠ msg_no_closedir path := by
  refine ⟨by simp [closedir, State.emit], by decide, by simp [Event.is_table_read],
    by simp [Event.is_backend_call], msg_bad_dirp_ne_msg_no_closedir⟩

/-- C6: for a non-null handle `dirp` holding a `DIR` whose `fd` selects a mount
record without a close routine, `closedir` returns `-1`, calls no backend
routine, prints one line naming the path of the handle, and leaves the whole
memory as it was: the `DIR` at `dirp` is still there with the same `fd`, `path`
and `cursor`, and `mountpoint_list` is the same. -/
theorem closedir_without_routine_fails (env : Env) (dirp : Ptr) (s : State)
    (d : DIR) (mp : mountpoint_t)
    (hp : dirp ≠ NULL) (hd : load s.world dirp = some d)
    (hm : mountpoint_at s.world d.fd = some mp) (hf : mp.dir_op.closedir_f = NULL) :
    ∃ s1 : State,
      closedir env dirp s = .ret (-1) s1 ∧ (-1 : Int) < 0 ∧
      s1.trace = s.trace ++ [.read_mountpoint d.fd, .printf (msg_no_closedir d.path)] ∧
      (List.filter Event.is_backend_call
        [.read_mountpoint d.fd, .printf (msg_no_closedir d.path)]) = [] ∧
      s1.world = s.world ∧
      load s1.world dirp = some d ∧
      s1.world.mountpoint_list = s.world.mountpoint_list := by
  refine ⟨s.emit [.read_mountpoint d.fd, .printf (msg_no_closedir d.path)], ?_, by decide,
    rfl, by simp [Event.is_backend_call], rfl, hd, rfl⟩
  simp [closedir, hp, hd, hm, hf]

/-- Witness for C6: closing a handle of the `/proc` mount of the demo system,
which has no close routine. -/
theorem closedir_without_routine_fails_witness :
    ((1 : Ptr) ≠ NULL ∧
      load (demo_open 2 "/proc/1").world 1 = some { fd := 2, path := "/proc/1", cursor := 0 } ∧
      mountpoint_at (demo_open 2 "/proc/1").world 2 =
        some { mountpoint := "/proc", dir_op := { opendir_f := NULL, closedir_f := NULL } }) ∧
    ∃ s1 : State,
      closedir demo_env 1 (demo_open 2 "/proc/1") = .ret (-1) s1 ∧ (-1 : Int) < 0 ∧
      s1.trace = [] ++ [.read_mountpoint 2, .printf (msg_no_closedir "/proc/1")] ∧
      (List.filter Event.is_backend_call
        [.read_mountpoint 2, .printf (msg_no_closedir "/proc/1")]) = [] ∧
      s1.world = (demo_open 2 "/proc/1").world ∧
      load s1.world 1 = some { fd := 2, path := "/proc/1", cursor := 0 } ∧
      s1.world.mountpoint_list = demo_mounts :=
  ⟨⟨by decide, rfl, rfl⟩,
    closedir_without_routine_fails demo_env 1 (demo_open 2 "/proc/1")
      { fd := 2, path := "/proc/1", cursor := 0 }
      { mountpoint := "/proc", dir_op := { opendir_f := NULL, closedir_f := NULL } }
      (by decide) rfl rfl rfl⟩

/-! ## Memory lemmas -/

/-- A live object sits inside the heap. -/
theorem load_some_bounds {w : World} {p : Ptr} {d : DIR} (h : load w p = some d) :
    p ≠ NULL ∧ p - 1 < w.heap.length := by
  unfold load at h
  by_cases hp : p = NULL
  · simp [hp] at h
  · refine ⟨hp, ?_⟩
    by_contra hlt
    have hnone : w.heap[p - 1]? = none := List.getElem?_eq_none (Nat.le_of_not_lt hlt)
    simp [hp, hnone] at h

/-- Reading back the object just written over a live one. -/
theorem load_store_same {w : World} {p : Ptr} {d : DIR} (d1 : DIR) (h : load w p = some d) :
    load (store w p d1) p = some d1 := by
  obtain ⟨hp, hlt⟩ := load_some_bounds h
  simp [load, store, hp, hlt]

/-- Writing at `p` leaves every other address alone. -/
theorem load_store_other (w : World) (p q : Ptr) (d1 : DIR) (hp : p ≠ NULL) (hq : q ≠ p) :
    load (store w p d1) q = load w q := by
  unfold load store
  by_cases hq0 : q = NULL
  · simp [hq0]
  · have key : ∀ a b : Nat, a ≠ 0 → b ≠ 0 → b ≠ a → a - 1 ≠ b - 1 := by
      intro a b ha hb hab
      omega
    have hne : p - 1 ≠ q - 1 := key p q hp hq0 hq
    simp [hq0, List.getElem?_set_ne hne]

/-! ## `opendir` -/

/-- The first block of `opendir` in terms of `canonical` and `resolver_events`,
for an argument that fits in the buffer. -/
theorem opendir_resolve_eq (env : Env) (path : String) (s : State)
    (hfit : path.utf8ByteSize < env.PATH_MAX) :
    (canonical env s.world path = none →
      opendir_resolve env path s = .ret none (s.emit (resolver_events path))) ∧
    (∀ abs : String, canonical env s.world path = some abs →
      abs.utf8ByteSize < env.PATH_MAX →
      opendir_resolve env path s = .ret (some abs) (s.emit (resolver_events path))) ∧
    (∀ abs : String, canonical env s.world path = some abs →
      env.PATH_MAX ≤ abs.utf8ByteSize →
      opendir_resolve env path s = .undefined) := by
  have hnot : ¬ env.PATH_MAX ≤ path.utf8ByteSize := Nat.not_le.mpr hfit
  unfold opendir_resolve canonical resolver_events State.emit
  by_cases h : char0 path = '/'
  · refine ⟨by simp [h], ?_, ?_⟩
    · intro abs habs _
      simp only [h, ne_eq, not_true_eq_false, if_false, Option.some.injEq] at habs
      subst habs
      simp [hnot, h]
    · intro abs habs hbig
      simp only [h, ne_eq, not_true_eq_false, if_false, Option.some.injEq] at habs
      subst habs
      exact absurd hbig hnot
  · refine ⟨?_, ?_, ?_⟩
    · intro hc
      simp only [h, ne_eq, not_false_eq_true, if_true] at hc
      simp [hnot, h, hc]
    · intro abs habs hsmall
      simp only [h, ne_eq, not_false_eq_true, if_true] at habs
      simp [hnot, h, habs, Nat.not_le.mpr hsmall]
    · intro abs habs hbig
      simp only [h, ne_eq, not_false_eq_true, if_true] at habs
      simp [hnot, h, habs, hbig]

/-- An argument that does not fit in the buffer makes `opendir` undefined. -/
theorem opendir_overflow (env : Env) (path : String) (s : State)
    (hbig : env.PATH_MAX ≤ path.utf8ByteSize) : opendir env path s = .undefined := by
  simp [opendir, opendir_resolve, hbig]

/-- Every way `opendir` can run, read off its text: buffer overflow, resolver
failure, no mount, index out of bounds, no open routine, backend returned null,
backend returned a pointer that holds no `DIR`, backend returned a live
handle. -/
theorem opendir_cases (env : Env) (path : String) (s : State) :
    (opendir env path s = .undefined ∧
      (env.PATH_MAX ≤ path.utf8ByteSize ∨
        ∃ abs : String, canonical env s.world path = some abs ∧
          env.PATH_MAX ≤ abs.utf8ByteSize)) ∨
    (path.utf8ByteSize < env.PATH_MAX ∧
    ((canonical env s.world path = none ∧
      opendir env path s = .ret NULL
        { world := s.world,
          trace := s.trace ++ (resolver_events path ++ [.dbg_print msg_no_absolute]) }) ∨
    ∃ abs : String, canonical env s.world path = some abs ∧
      abs.utf8ByteSize < env.PATH_MAX ∧
      ((env.get_mountpoint_id s.world abs < 0 ∧
        opendir env path s = .ret NULL
          { world := s.world,
            trace := s.trace ++ (resolver_events path ++
              [.call_get_mountpoint_id abs, .printf (msg_no_mount abs)]) }) ∨
      (0 ≤ env.get_mountpoint_id s.world abs ∧
        mountpoint_at s.world (env.get_mountpoint_id s.world abs) = none ∧
        opendir env path s = .undefined) ∨
      ∃ mp : mountpoint_t, 0 ≤ env.get_mountpoint_id s.world abs ∧
        mountpoint_at s.world (env.get_mountpoint_id s.world abs) = some mp ∧
        ((mp.dir_op.opendir_f = NULL ∧
          opendir env path s = .ret NULL
            { world := s.world,
              trace := s.trace ++ (resolver_events path ++
                [.call_get_mountpoint_id abs,
                  .read_mountpoint (env.get_mountpoint_id s.world abs),
                  .printf (msg_no_opendir abs)]) }) ∨
        (mp.dir_op.opendir_f ≠ NULL ∧
          (env.opendir_code mp.dir_op.opendir_f abs s.world).1 = NULL ∧
          opendir env path s = .ret NULL
            { world := (env.opendir_code mp.dir_op.opendir_f abs s.world).2,
              trace := s.trace ++ (resolver_events path ++
                [.call_get_mountpoint_id abs,
                  .read_mountpoint (env.get_mountpoint_id s.world abs),
                  .read_mountpoint (env.get_mountpoint_id s.world abs),
                  .call_opendir_f mp.dir_op.opendir_f abs]) }) ∨
        (mp.dir_op.opendir_f ≠ NULL ∧
          (env.opendir_code mp.dir_op.opendir_f abs s.world).1 ≠ NULL ∧
          load (env.opendir_code mp.dir_op.opendir_f abs s.world).2
            (env.opendir_code mp.dir_op.opendir_f abs s.world).1 = none ∧
          opendir env path s = .undefined) ∨
        ∃ d : DIR, mp.dir_op.opendir_f ≠ NULL ∧
          (env.opendir_code mp.dir_op.opendir_f abs s.world).1 ≠ NULL ∧
          load (env.opendir_code mp.dir_op.opendir_f abs s.world).2
            (env.opendir_code mp.dir_op.opendir_f abs s.world).1 = some d ∧
          opendir env path s =
            .ret (env.opendir_code mp.dir_op.opendir_f abs s.world).1
              { world := store (env.opendir_code mp.dir_op.opendir_f abs s.world).2
                  (env.opendir_code mp.dir_op.opendir_f abs s.world).1
                  { d with fd := env.get_mountpoint_id s.world abs },
                trace := s.trace ++ (resolver_events path ++
                  [.call_get_mountpoint_id abs,
                    .read_mountpoint (env.get_mountpoint_id s.world abs),
                    .read_mountpoint (env.get_mountpoint_id s.world abs),
                    .call_opendir_f mp.dir_op.opendir_f abs]) })))) := by
  by_cases hfit : path.utf8ByteSize < env.PATH_MAX
  swap
  · exact Or.inl ⟨opendir_overflow env path s (Nat.le_of_not_lt hfit),
      Or.inl (Nat.le_of_not_lt hfit)⟩
  obtain ⟨hnone, hsome, hover⟩ := opendir_resolve_eq env path s hfit
  cases hc : canonical env s.world path with
  | none =>
    right
    refine ⟨hfit, Or.inl ⟨rfl, ?_⟩⟩
    unfold opendir
    rw [hnone hc]
    simp [State.emit]
  | some abs =>
    by_cases habs : abs.utf8ByteSize < env.PATH_MAX
    swap
    · left
      refine ⟨?_, Or.inr ⟨abs, rfl, Nat.le_of_not_lt habs⟩⟩
      unfold opendir
      rw [hover abs hc (Nat.le_of_not_lt habs)]
    right
    refine ⟨hfit, Or.inr ⟨abs, rfl, habs, ?_⟩⟩
    unfold opendir
    rw [hsome abs hc habs]
    by_cases hneg : env.get_mountpoint_id s.world abs < 0
    · left; simp [hneg, State.emit]
    · right
      have h0 : 0 ≤ env.get_mountpoint_id s.world abs := Int.not_lt.mp hneg
      cases hmp : mountpoint_at s.world (env.get_mountpoint_id s.world abs) with
      | none => left; simp [hneg, h0, hmp, State.emit]
      | some mp =>
        right
        refine ⟨mp, h0, rfl, ?_⟩
        by_cases hf : mp.dir_op.opendir_f = NULL
        · left; simp [hneg, hmp, hf, State.emit]
        · right
          by_cases hr : (env.opendir_code mp.dir_op.opendir_f abs s.world).1 = NULL
          · left; simp [hneg, hmp, hf, hr, State.emit]
          · right
            cases hl : (load (env.opendir_code mp.dir_op.opendir_f abs s.world).2
                (env.opendir_code mp.dir_op.opendir_f abs s.world).1) with
            | none => left; simp [hneg, hmp, hf, hr, hl, State.emit]
            | some d => right; exact ⟨d, hf, hr, rfl, by simp [hneg, hmp, hf, hr, hl, State.emit]⟩

/-- Every way `closedir` can run, read off its text. -/
theorem closedir_cases (env : Env) (dirp : Ptr) (s : State) :
    (dirp = NULL ∧
      closedir env dirp s =
        .ret (-1) { world := s.world, trace := s.trace ++ [.printf msg_bad_dirp] }) ∨
    (dirp ≠ NULL ∧ load s.world dirp = none ∧ closedir env dirp s = .undefined) ∨
    ∃ d : DIR, dirp ≠ NULL ∧ load s.world dirp = some d ∧
      ((mountpoint_at s.world d.fd = none ∧ closedir env dirp s = .undefined) ∨
      ∃ mp : mountpoint_t, mountpoint_at s.world d.fd = some mp ∧
        ((mp.dir_op.closedir_f = NULL ∧
          closedir env dirp s =
            .ret (-1) { world := s.world,
                        trace := s.trace ++
                          [.read_mountpoint d.fd, .printf (msg_no_closedir d.path)] }) ∨
        (mp.dir_op.closedir_f ≠ NULL ∧
          closedir env dirp s =
            .ret (env.closedir_code mp.dir_op.closedir_f dirp s.world).1
              { world := (env.closedir_code mp.dir_op.closedir_f dirp s.world).2,
                trace := s.trace ++ [.read_mountpoint d.fd, .read_mountpoint d.fd,
                  .call_closedir_f mp.dir_op.closedir_f dirp] }))) := by
  unfold closedir
  by_cases hp : dirp = NULL
  · left; simp [hp, State.emit]
  · right
    cases hl : load s.world dirp with
    | none => left; simp [hp]
    | some d =>
      right
      refine ⟨d, hp, rfl, ?_⟩
      cases hmp : mountpoint_at s.world d.fd with
      | none => left; simp [hp, hmp]
      | some mp =>
        right
        refine ⟨mp, rfl, ?_⟩
        by_cases hf : mp.dir_op.closedir_f = NULL
        · left; simp [hp, hmp, hf, State.emit]
        · right; simp [hp, hmp, hf]

/-- The resolver call is no backend call. -/
theorem filter_backend_call_resolver_events (path : String) (l : List Event) :
    (resolver_events path ++ l).filter Event.is_backend_call =
      l.filter Event.is_backend_call := by
  unfold resolver_events; split <;> simp [Event.is_backend_call]

/-- The resolver call writes no line. -/
theorem filter_diagnostic_resolver_events (path : String) (l : List Event) :
    (resolver_events path ++ l).filter Event.is_diagnostic =
      l.filter Event.is_diagnostic := by
  unfold resolver_events; split <;> simp [Event.is_diagnostic]

/-! ## The five lines, spelled out -/

/-- Text of the line for a failed mount lookup. -/
theorem msg_no_mount_text (abs : String) :
    msg_no_mount abs =
      "opendir: cannot open directory '" ++ abs ++ "':Cannot find mount-point\n" := by
  unfold msg_no_mount
  rw [String.append_assoc]
  rfl

/-- Text of the line for a missing open routine. -/
theorem msg_no_opendir_text (abs : String) :
    msg_no_opendir abs =
      "opendir: cannot open directory '" ++ abs ++ "':No opendir function\n" := by
  unfold msg_no_opendir
  rw [String.append_assoc]
  rfl

/-- Text of the line for a missing close routine. -/
theorem msg_no_closedir_text (path : String) :
    msg_no_closedir path =
      "closedir: cannot close directory '" ++ path ++ "':No closedir function\n" := by
  unfold msg_no_closedir
  rw [String.append_assoc]
  rfl

/-- Text of the line for a resolver failure. -/
theorem msg_no_absolute_text : msg_no_absolute = "Cannot get the absolute path.\n" := rfl

/-- Text of the line for a null handle. -/
theorem msg_bad_dirp_text :
    msg_bad_dirp = "closedir: cannot close directory :Directory pointer is not valid\n" := by
  decide

/-! ## Failure paths of `opendir` -/

/-- C9: for a path that fits in the buffer and does not start with `/` (the
empty path is one), when `get_absolute_path` fails `opendir` returns the null
pointer and leaves the memory alone; it calls the resolver, hands the text
`Cannot get the absolute path.` to `dbg_print`, and does nothing else: no mount
lookup, no read of `mountpoint_list`, no backend call. -/
theorem opendir_resolver_failure (env : Env) (path : String) (s : State)
    (hfit : path.utf8ByteSize < env.PATH_MAX)
    (hrel : char0 path ≠ '/') (hfail : env.get_absolute_path s.world path = none) :
    char0 "" ≠ '/' ∧
    ∃ evs : List Event,
      opendir env path s = .ret NULL { world := s.world, trace := s.trace ++ evs } ∧
      evs = [.call_get_absolute_path path, .dbg_print "Cannot get the absolute path.\n"] ∧
      evs.filter Event.is_diagnostic = [.dbg_print "Cannot get the absolute path.\n"] ∧
      evs.filter Event.is_lookup = [] ∧
      evs.filter Event.is_table_read = [] ∧
      evs.filter Event.is_backend_call = [] := by
  have hnot : ¬ env.PATH_MAX ≤ path.utf8ByteSize := Nat.not_le.mpr hfit
  refine ⟨by decide, _, ?_, rfl, ?_, ?_, ?_, ?_⟩
  · rw [← msg_no_absolute_text]
    simp [opendir, opendir_resolve, hnot, hrel, hfail, State.emit]
  · simp [Event.is_diagnostic]
  · simp [Event.is_lookup]
  · simp [Event.is_table_read]
  · simp [Event.is_backend_call]

/-- Witness for C9: the empty path in a process without a working directory. -/
theorem opendir_resolver_failure_witness :
    ("".utf8ByteSize < demo_env_no_cwd.PATH_MAX ∧ char0 "" ≠ '/' ∧
      demo_env_no_cwd.get_absolute_path demo_init.world "" = none) ∧
    (char0 "" ≠ '/' ∧
    ∃ evs : List Event,
      opendir demo_env_no_cwd "" demo_init =
        .ret NULL { world := demo_init.world, trace := demo_init.trace ++ evs } ∧
      evs = [.call_get_absolute_path "", .dbg_print "Cannot get the absolute path.\n"] ∧
      evs.filter Event.is_diagnostic = [.dbg_print "Cannot get the absolute path.\n"] ∧
      evs.filter Event.is_lookup = [] ∧
      evs.filter Event.is_table_read = [] ∧
      evs.filter Event.is_backend_call = []) :=
  ⟨⟨by decide, by decide, rfl⟩,
    opendir_resolver_failure demo_env_no_cwd "" demo_init (by decide) (by decide) rfl⟩

/-- C4: when `path` fits in the buffer, its canonical form `abs` exists (and
fits), and `get_mountpoint_id` returns a negative identifier for `abs`,
`opendir` returns the null pointer and leaves the memory alone (no handle
appears in it); after the resolver call, if any, it performs the lookup and
prints the one line `opendir: cannot open directory 'abs':Cannot find
mount-point`; it reads no element of `mountpoint_list` and calls no backend
routine. -/
theorem opendir_no_mount (env : Env) (path abs : String) (s : State)
    (hfit : path.utf8ByteSize < env.PATH_MAX)
    (hres : canonical env s.world path = some abs)
    (habs : abs.utf8ByteSize < env.PATH_MAX)
    (hneg : env.get_mountpoint_id s.world abs < 0) :
    ∃ evs : List Event,
      opendir env path s = .ret NULL { world := s.world, trace := s.trace ++ evs } ∧
      evs = resolver_events path ++ [.call_get_mountpoint_id abs,
        .printf ("opendir: cannot open directory '" ++ abs ++ "':Cannot find mount-point\n")] ∧
      evs.filter Event.is_table_read = [] ∧
      evs.filter Event.is_backend_call = [] ∧
      evs.filter Event.is_diagnostic =
        [.printf ("opendir: cannot open directory '" ++ abs ++ "':Cannot find mount-point\n")] := by
  refine ⟨_, ?_, rfl, ?_, ?_, ?_⟩
  · rw [← msg_no_mount_text]
    unfold opendir
    rw [(opendir_resolve_eq env path s hfit).2.1 abs hres habs]
    simp [hneg, State.emit]
  · unfold resolver_events; split <;> simp [Event.is_table_read]
  · rw [filter_backend_call_resolver_events]; simp [Event.is_backend_call]
  · rw [filter_diagnostic_resolver_events]; simp [Event.is_diagnostic]

/-- Witness for C4: `/dev/console` in a system with an empty mount table. -/
theorem opendir_no_mount_witness :
    ("/dev/console".utf8ByteSize < demo_env.PATH_MAX ∧
      canonical demo_env empty_init.world "/dev/console" = some "/dev/console" ∧
      demo_env.get_mountpoint_id empty_init.world "/dev/console" < 0) ∧
    ∃ evs : List Event,
      opendir demo_env "/dev/console" empty_init =
        .ret NULL { world := empty_init.world, trace := empty_init.trace ++ evs } ∧
      evs = resolver_events "/dev/console" ++ [.call_get_mountpoint_id "/dev/console",
        .printf ("opendir: cannot open directory '" ++ "/dev/console" ++
          "':Cannot find mount-point\n")] ∧
      evs.filter Event.is_table_read = [] ∧
      evs.filter Event.is_backend_call = [] ∧
      evs.filter Event.is_diagnostic =
        [.printf ("opendir: cannot open directory '" ++ "/dev/console" ++
          "':Cannot find mount-point\n")] :=
  ⟨⟨by decide, rfl, by decide⟩,
    opendir_no_mount demo_env "/dev/console" "/dev/console" empty_init
      (by decide) rfl (by decide) (by decide)⟩

/-- C7: when `path` fits in the buffer, its canonical form `abs` exists (and
fits), and the lookup selects a mount record without an open routine, `opendir`
returns the null pointer, leaves the memory alone and calls no backend routine;
it prints the one line `opendir: cannot open directory 'abs':No opendir
function`, which holds `abs` and the reason. -/
theorem opendir_without_routine_fails (env : Env) (path abs : String) (s : State)
    (m : Int) (mp : mountpoint_t)
    (hfit : path.utf8ByteSize < env.PATH_MAX)
    (hres : canonical env s.world path = some abs)
    (habs : abs.utf8ByteSize < env.PATH_MAX)
    (hm : env.get_mountpoint_id s.world abs = m) (h0 : 0 ≤ m)
    (hmp : mountpoint_at s.world m = some mp) (hf : mp.dir_op.opendir_f = NULL) :
    ∃ evs : List Event,
      opendir env path s = .ret NULL { world := s.world, trace := s.trace ++ evs } ∧
      evs = resolver_events path ++ [.call_get_mountpoint_id abs, .read_mountpoint m,
        .printf ("opendir: cannot open directory '" ++ abs ++ "':No opendir function\n")] ∧
      evs.filter Event.is_backend_call = [] ∧
      evs.filter Event.is_diagnostic =
        [.printf ("opendir: cannot open directory '" ++ abs ++ "':No opendir function\n")] := by
  subst hm
  refine ⟨_, ?_, rfl, ?_, ?_⟩
  · rw [← msg_no_opendir_text]
    unfold opendir
    rw [(opendir_resolve_eq env path s hfit).2.1 abs hres habs]
    simp [Int.not_lt.mpr h0, hmp, hf, State.emit]
  · rw [filter_backend_call_resolver_events]; simp [Event.is_backend_call]
  · rw [filter_diagnostic_resolver_events]; simp [Event.is_diagnostic]

/-- Witness for C7: `/proc/1` in the demo system, whose `/proc` mount has no
open routine. -/
theorem opendir_without_routine_fails_witness :
    ("/proc/1".utf8ByteSize < demo_env.PATH_MAX ∧
      canonical demo_env demo_init.world "/proc/1" = some "/proc/1" ∧
      demo_env.get_mountpoint_id demo_init.world "/proc/1" = 2 ∧ (0 : Int) ≤ 2 ∧
      mountpoint_at demo_init.world 2 =
        some { mountpoint := "/proc", dir_op := { opendir_f := NULL, closedir_f := NULL } }) ∧
    ∃ evs : List Event,
      opendir demo_env "/proc/1" demo_init =
        .ret NULL { world := demo_init.world, trace := demo_init.trace ++ evs } ∧
      evs = resolver_events "/proc/1" ++ [.call_get_mountpoint_id "/proc/1", .read_mountpoint 2,
        .printf ("opendir: cannot open directory '" ++ "/proc/1" ++ "':No opendir function\n")] ∧
      evs.filter Event.is_backend_call = [] ∧
      evs.filter Event.is_diagnostic =
        [.printf ("opendir: cannot open directory '" ++ "/proc/1" ++
          "':No opendir function\n")] :=
  ⟨⟨by decide, rfl, by decide, by decide, rfl⟩,
    opendir_without_routine_fails demo_env "/proc/1" "/proc/1" demo_init 2
      { mountpoint := "/proc", dir_op := { opendir_f := NULL, closedir_f := NULL } }
      (by decide) rfl (by decide) (by decide) (by decide) rfl rfl⟩

/-! ## The successful path of `opendir` -/

/-- C2: when `path` fits in the buffer, its canonical form `abs` exists (and
fits), the lookup returns `m ≥ 0` and record `m` has an open routine, `opendir`
calls that routine once, with `abs`, in the memory it was entered with, and
prints nothing. If the routine returns the null pointer, `opendir` returns the
null pointer and the memory is exactly what the routine left. If it returns a
live handle, `opendir` returns that pointer; the `DIR` behind it has `fd = m`
and the `path` and `cursor` the routine gave it, and every other object and
`mountpoint_list` are what the routine left. -/
theorem opendir_forwards_and_stamps (env : Env) (path abs : String) (s : State)
    (m : Int) (mp : mountpoint_t)
    (hfit : path.utf8ByteSize < env.PATH_MAX)
    (hres : canonical env s.world path = some abs)
    (habs : abs.utf8ByteSize < env.PATH_MAX)
    (hm : env.get_mountpoint_id s.world abs = m) (h0 : 0 ≤ m)
    (hmp : mountpoint_at s.world m = some mp) (hf : mp.dir_op.opendir_f ≠ NULL) :
    ∃ evs : List Event,
      evs = resolver_events path ++ [.call_get_mountpoint_id abs, .read_mountpoint m,
        .read_mountpoint m, .call_opendir_f mp.dir_op.opendir_f abs] ∧
      evs.filter Event.is_backend_call = [.call_opendir_f mp.dir_op.opendir_f abs] ∧
      evs.filter Event.is_diagnostic = [] ∧
      (∀ w1 : World, env.opendir_code mp.dir_op.opendir_f abs s.world = (NULL, w1) →
        opendir env path s = .ret NULL { world := w1, trace := s.trace ++ evs }) ∧
      (∀ (pdir : Ptr) (w1 : World) (d : DIR),
        env.opendir_code mp.dir_op.opendir_f abs s.world = (pdir, w1) →
        pdir ≠ NULL → load w1 pdir = some d →
        ∃ w2 : World,
          opendir env path s = .ret pdir { world := w2, trace := s.trace ++ evs } ∧
          w2 = store w1 pdir { d with fd := m } ∧
          load w2 pdir = some { fd := m, path := d.path, cursor := d.cursor } ∧
          (∀ q : Ptr, q ≠ pdir → load w2 q = load w1 q) ∧
          w2.mountpoint_list = w1.mountpoint_list) := by
  subst hm
  have hneg : ¬ env.get_mountpoint_id s.world abs < 0 := Int.not_lt.mpr h0
  have hresolve := (opendir_resolve_eq env path s hfit).2.1 abs hres habs
  refine ⟨_, rfl, ?_, ?_, ?_, ?_⟩
  · rw [filter_backend_call_resolver_events]; simp [Event.is_backend_call]
  · rw [filter_diagnostic_resolver_events]; simp [Event.is_diagnostic]
  · intro w1 hr
    unfold opendir
    rw [hresolve]
    simp [hneg, hmp, hf, hr, State.emit]
  · intro pdir w1 d hr hp hl
    refine ⟨store w1 pdir { d with fd := env.get_mountpoint_id s.world abs }, ?_, rfl,
      load_store_same _ hl, fun q hq => load_store_other w1 pdir q _ hp hq, rfl⟩
    unfold opendir
    rw [hresolve]
    simp [hneg, hmp, hf, hr, hp, hl, State.emit]

/-- Witness for C2: the relative path `logs` in the demo system, working
directory `/var`. The open routine of mount `0` returns the handle at address
`1` with `fd = -1`; `opendir` returns address `1`, and the handle there has
`fd = 0` and the path and cursor the routine gave it. -/
theorem opendir_forwards_and_stamps_witness :
    ("logs".utf8ByteSize < demo_env.PATH_MAX ∧
      canonical demo_env demo_init.world "logs" = some "/var/logs" ∧
      "/var/logs".utf8ByteSize < demo_env.PATH_MAX ∧
      demo_env.get_mountpoint_id demo_init.world "/var/logs" = 0 ∧ (0 : Int) ≤ 0 ∧
      mountpoint_at demo_init.world 0 =
        some { mountpoint := "/", dir_op := { opendir_f := 1, closedir_f := 2 } } ∧
      (1 : Ptr) ≠ NULL) ∧
    (demo_env.opendir_code 1 "/var/logs" demo_init.world =
        (1, { mountpoint_list := demo_mounts,
              heap := [some { fd := -1, path := "/var/logs", cursor := 1 }] }) ∧
      load { mountpoint_list := demo_mounts,
             heap := [some { fd := -1, path := "/var/logs", cursor := 1 }] } 1 =
        some { fd := -1, path := "/var/logs", cursor := 1 }) ∧
    ∃ w2 : World,
      opendir demo_env "logs" demo_init =
        .ret 1 { world := w2,
                 trace := [.call_get_absolute_path "logs", .call_get_mountpoint_id "/var/logs",
                   .read_mountpoint 0, .read_mountpoint 0, .call_opendir_f 1 "/var/logs"] } ∧
      w2 = { mountpoint_list := demo_mounts,
             heap := [some { fd := 0, path := "/var/logs", cursor := 1 }] } ∧
      load w2 1 = some { fd := 0, path := "/var/logs", cursor := 1 } ∧
      (∀ q : Ptr, q ≠ 1 → load w2 q =
        load { mountpoint_list := demo_mounts,
               heap := [some { fd := -1, path := "/var/logs", cursor := 1 }] } q) ∧
      w2.mountpoint_list = demo_mounts := by
  refine ⟨⟨by decide, rfl, by decide, by decide, by decide, rfl, by decide⟩, ⟨rfl, rfl⟩, ?_⟩
  obtain ⟨evs, hevs, -, -, -, hlive⟩ :=
    opendir_forwards_and_stamps demo_env "logs" "/var/logs" demo_init 0
      { mountpoint := "/", dir_op := { opendir_f := 1, closedir_f := 2 } }
      (by decide) rfl (by decide) (by decide) (by decide) rfl (by decide)
  subst hevs
  exact hlive 1 { mountpoint_list := demo_mounts,
                  heap := [some { fd := -1, path := "/var/logs", cursor := 1 }] }
    { fd := -1, path := "/var/logs", cursor := 1 } rfl (by decide) rfl

/-- C8: let `P` start with `/`, let `R` not start with `/`, let both fit in the
buffer, and let the resolver turn `R` into `P`. Then `opendir R` is `opendir P`
run after the one resolver call. When the lookup of `P` selects record `m` with
an open routine, and that routine returns null or a live handle, both calls
return the same pointer and leave the same memory; both look up the string
`P`, read record `m` and call its open routine with `P`; the only difference is
the resolver call at the head of the trace of `opendir R`. The actions of
`opendir P` contain no resolver call. -/
theorem opendir_relative_same_dispatch (env : Env) (R P : String) (s : State)
    (m : Int) (mp : mountpoint_t)
    (hRfit : R.utf8ByteSize < env.PATH_MAX) (hPfit : P.utf8ByteSize < env.PATH_MAX)
    (hP : char0 P = '/') (hR : char0 R ≠ '/')
    (hres : env.get_absolute_path s.world R = some P)
    (hm : env.get_mountpoint_id s.world P = m) (h0 : 0 ≤ m)
    (hmp : mountpoint_at s.world m = some mp) (hf : mp.dir_op.opendir_f ≠ NULL) :
    opendir env R s = opendir env P (s.emit [.call_get_absolute_path R]) ∧
    ∃ evs : List Event,
      evs = [.call_get_mountpoint_id P, .read_mountpoint m, .read_mountpoint m,
        .call_opendir_f mp.dir_op.opendir_f P] ∧
      evs.filter Event.is_resolver_call = [] ∧
      evs.filter Event.is_lookup = [.call_get_mountpoint_id P] ∧
      evs.filter Event.is_backend_call = [.call_opendir_f mp.dir_op.opendir_f P] ∧
      ((env.opendir_code mp.dir_op.opendir_f P s.world).1 = NULL ∨
          (load (env.opendir_code mp.dir_op.opendir_f P s.world).2
            (env.opendir_code mp.dir_op.opendir_f P s.world).1).isSome →
        ∃ w2 : World,
          opendir env P s =
            .ret (env.opendir_code mp.dir_op.opendir_f P s.world).1
              { world := w2, trace := s.trace ++ evs } ∧
          opendir env R s =
            .ret (env.opendir_code mp.dir_op.opendir_f P s.world).1
              { world := w2, trace := s.trace ++ .call_get_absolute_path R :: evs }) := by
  subst hm
  have hneg : ¬ env.get_mountpoint_id s.world P < 0 := Int.not_lt.mpr h0
  have hRn : ¬ env.PATH_MAX ≤ R.utf8ByteSize := Nat.not_le.mpr hRfit
  have hPn : ¬ env.PATH_MAX ≤ P.utf8ByteSize := Nat.not_le.mpr hPfit
  refine ⟨?_, _, rfl, by simp [Event.is_resolver_call], by simp [Event.is_lookup],
    by simp [Event.is_backend_call], ?_⟩
  · simp [opendir, opendir_resolve, hRn, hPn, hP, hR, hres, State.emit]
  · intro hret
    by_cases hr : (env.opendir_code mp.dir_op.opendir_f P s.world).1 = NULL
    · exact ⟨(env.opendir_code mp.dir_op.opendir_f P s.world).2,
        by simp [opendir, opendir_resolve, hPn, hP, hneg, hmp, hf, hr, State.emit],
        by simp [opendir, opendir_resolve, hRn, hPn, hR, hres, hneg, hmp, hf, hr, State.emit]⟩
    · cases hl : (load (env.opendir_code mp.dir_op.opendir_f P s.world).2
          (env.opendir_code mp.dir_op.opendir_f P s.world).1) with
      | none => simp [hr, hl] at hret
      | some d =>
        exact ⟨store (env.opendir_code mp.dir_op.opendir_f P s.world).2
            (env.opendir_code mp.dir_op.opendir_f P s.world).1
            { d with fd := env.get_mountpoint_id s.world P },
          by simp [opendir, opendir_resolve, hPn, hP, hneg, hmp, hf, hr, hl, State.emit],
          by simp [opendir, opendir_resolve, hRn, hPn, hR, hres, hneg, hmp, hf, hr, hl,
            State.emit]⟩

/-- Witness for C8: `logs` and `/var/logs` in the demo system, working
directory `/var`: both calls return the handle at address `1`, stamped with
mount `0`, after the same lookup and the same backend call. -/
theorem opendir_relative_same_dispatch_witness :
    ("logs".utf8ByteSize < demo_env.PATH_MAX ∧ "/var/logs".utf8ByteSize < demo_env.PATH_MAX ∧
      char0 "/var/logs" = '/' ∧ char0 "logs" ≠ '/' ∧
      demo_env.get_absolute_path demo_init.world "logs" = some "/var/logs" ∧
      demo_env.get_mountpoint_id demo_init.world "/var/logs" = 0 ∧ (0 : Int) ≤ 0 ∧
      mountpoint_at demo_init.world 0 =
        some { mountpoint := "/", dir_op := { opendir_f := 1, closedir_f := 2 } } ∧
      (1 : Ptr) ≠ NULL) ∧
    opendir demo_env "logs" demo_init =
      opendir demo_env "/var/logs" (demo_init.emit [.call_get_absolute_path "logs"]) ∧
    ∃ w2 : World,
      opendir demo_env "/var/logs" demo_init =
        .ret 1 { world := w2,
                 trace := [.call_get_mountpoint_id "/var/logs", .read_mountpoint 0,
                   .read_mountpoint 0, .call_opendir_f 1 "/var/logs"] } ∧
      opendir demo_env "logs" demo_init =
        .ret 1 { world := w2,
                 trace := [.call_get_absolute_path "logs", .call_get_mountpoint_id "/var/logs",
                   .read_mountpoint 0, .read_mountpoint 0, .call_opendir_f 1 "/var/logs"] } := by
  obtain ⟨heq, evs, hevs, -, -, -, hboth⟩ :=
    opendir_relative_same_dispatch demo_env "logs" "/var/logs" demo_init 0
      { mountpoint := "/", dir_op := { opendir_f := 1, closedir_f := 2 } }
      (by decide) (by decide) (by decide) (by decide) rfl (by decide) (by decide) rfl
      (by decide)
  subst hevs
  exact ⟨⟨by decide, by decide, by decide, by decide, rfl, by decide, by decide, rfl,
    by decide⟩, heq, hboth (Or.inr rfl)⟩

/-! ## From `opendir` to `closedir` -/

/-- C3: whenever `opendir` returns a non-null handle, the handle was produced by
the open routine of the mount record `m` that the lookup selected, and its `fd`
is `m`. In any later state in which the handle still has that `fd` and record
`m` of `mountpoint_list` is still the same record, `closedir` reads record `m`
and calls the close routine of that record on the handle, returning its result
(and returns `-1` after reading record `m` if the record has no close routine).
In the scenario with mounts `/` (id 0) and `/dev` (id 1),
`opendir("/dev/console")` calls the open routine of record 1 (address `3`) with
`/dev/console` and returns a handle with `fd = 1`, and `closedir` on it calls the
close routine of record 1 (address `4`). -/
theorem closedir_routes_to_opening_mount :
    (∀ (env : Env) (path : String) (s : State) (pdir : Ptr) (s1 : State),
      opendir env path s = .ret pdir s1 → pdir ≠ NULL →
      ∃ (abs : String) (m : Int) (mp : mountpoint_t) (d1 : DIR),
        canonical env s.world path = some abs ∧
        env.get_mountpoint_id s.world abs = m ∧ 0 ≤ m ∧
        mountpoint_at s.world m = some mp ∧ mp.dir_op.opendir_f ≠ NULL ∧
        pdir = (env.opendir_code mp.dir_op.opendir_f abs s.world).1 ∧
        s1.trace = s.trace ++ (resolver_events path ++ [.call_get_mountpoint_id abs,
          .read_mountpoint m, .read_mountpoint m, .call_opendir_f mp.dir_op.opendir_f abs]) ∧
        load s1.world pdir = some d1 ∧ d1.fd = m ∧
        ∀ (s2 : State) (d2 : DIR), load s2.world pdir = some d2 → d2.fd = d1.fd →
          mountpoint_at s2.world m = some mp →
          (mp.dir_op.closedir_f ≠ NULL →
            closedir env pdir s2 =
              .ret (env.closedir_code mp.dir_op.closedir_f pdir s2.world).1
                { world := (env.closedir_code mp.dir_op.closedir_f pdir s2.world).2,
                  trace := s2.trace ++ [.read_mountpoint m, .read_mountpoint m,
                    .call_closedir_f mp.dir_op.closedir_f pdir] }) ∧
          (mp.dir_op.closedir_f = NULL →
            closedir env pdir s2 =
              .ret (-1) { world := s2.world,
                          trace := s2.trace ++
                            [.read_mountpoint m, .printf (msg_no_closedir d2.path)] })) ∧
    (mountpoint_at scenario_init.world 1 =
        some { mountpoint := "/dev", dir_op := { opendir_f := 3, closedir_f := 4 } } ∧
      demo_env.get_mountpoint_id scenario_init.world "/dev/console" = 1 ∧
      opendir demo_env "/dev/console" scenario_init = .ret 1 scenario_opened ∧
      scenario_opened.trace = [.call_get_mountpoint_id "/dev/console", .read_mountpoint 1,
        .read_mountpoint 1, .call_opendir_f 3 "/dev/console"] ∧
      load scenario_opened.world 1 = some { fd := 1, path := "/dev/console", cursor := 3 } ∧
      closedir demo_env 1 scenario_opened =
        .ret 0 { world := { mountpoint_list := scenario_mounts, heap := [none] },
                 trace := scenario_opened.trace ++
                   [.read_mountpoint 1, .read_mountpoint 1, .call_closedir_f 4 1] }) := by
  refine ⟨?_, by decide, by decide, rfl, rfl, rfl, rfl⟩
  intro env path s pdir s1 hopen hp
  rcases opendir_cases env path s with ⟨h, _⟩ | ⟨_, ⟨_, h⟩ | ⟨abs, hc, _, ⟨_, h⟩ | ⟨_, _, h⟩ |
    ⟨mp, h0, hmp, ⟨_, h⟩ | ⟨_, _, h⟩ | ⟨_, _, _, h⟩ | ⟨d, hf, hr, hl, h⟩⟩⟩⟩
  · rw [h] at hopen; simp at hopen
  · rw [h] at hopen; simp at hopen; exact absurd hopen.1.symm hp
  · rw [h] at hopen; simp at hopen; exact absurd hopen.1.symm hp
  · rw [h] at hopen; simp at hopen
  · rw [h] at hopen; simp at hopen; exact absurd hopen.1.symm hp
  · rw [h] at hopen; simp at hopen; exact absurd hopen.1.symm hp
  · rw [h] at hopen; simp at hopen
  · rw [h] at hopen
    simp only [Outcome.ret.injEq] at hopen
    obtain ⟨hpd, hs1⟩ := hopen
    subst hs1
    refine ⟨abs, _, mp, { d with fd := env.get_mountpoint_id s.world abs }, hc, rfl, h0, hmp, hf,
      hpd.symm, rfl, ?_, rfl, ?_⟩
    · rw [← hpd]; exact load_store_same _ hl
    · intro s2 d2 hl2 hfd hmp2
      have hfd2 : d2.fd = env.get_mountpoint_id s.world abs := hfd
      constructor
      · intro hcf
        simp [closedir, hp, hl2, hmp2, hcf, hfd2]
      · intro hcf
        simp [closedir, hp, hl2, hmp2, hcf, hfd2, State.emit]

/-- Witness for C3: the general part at the two-mount scenario. -/
theorem closedir_routes_to_opening_mount_witness :
    (opendir demo_env "/dev/console" scenario_init = .ret 1 scenario_opened ∧ (1 : Ptr) ≠ NULL) ∧
    ∃ (abs : String) (m : Int) (mp : mountpoint_t) (d1 : DIR),
      canonical demo_env scenario_init.world "/dev/console" = some abs ∧
      demo_env.get_mountpoint_id scenario_init.world abs = m ∧ 0 ≤ m ∧
      mountpoint_at scenario_init.world m = some mp ∧ mp.dir_op.opendir_f ≠ NULL ∧
      (1 : Ptr) = (demo_env.opendir_code mp.dir_op.opendir_f abs scenario_init.world).1 ∧
      scenario_opened.trace = scenario_init.trace ++ (resolver_events "/dev/console" ++
        [.call_get_mountpoint_id abs, .read_mountpoint m, .read_mountpoint m,
          .call_opendir_f mp.dir_op.opendir_f abs]) ∧
      load scenario_opened.world 1 = some d1 ∧ d1.fd = m ∧
      ∀ (s2 : State) (d2 : DIR), load s2.world 1 = some d2 → d2.fd = d1.fd →
        mountpoint_at s2.world m = some mp →
        (mp.dir_op.closedir_f ≠ NULL →
          closedir demo_env 1 s2 =
            .ret (demo_env.closedir_code mp.dir_op.closedir_f 1 s2.world).1
              { world := (demo_env.closedir_code mp.dir_op.closedir_f 1 s2.world).2,
                trace := s2.trace ++ [.read_mountpoint m, .read_mountpoint m,
                  .call_closedir_f mp.dir_op.closedir_f 1] }) ∧
        (mp.dir_op.closedir_f = NULL →
          closedir demo_env 1 s2 =
            .ret (-1) { world := s2.world,
                        trace := s2.trace ++
                          [.read_mountpoint m, .printf (msg_no_closedir d2.path)] }) :=
  ⟨⟨rfl, by decide⟩,
    closedir_routes_to_opening_mount.1 demo_env "/dev/console" scenario_init 1 scenario_opened
      rfl (by decide)⟩

/-! ## Failures and diagnostics -/

/-- Counterexample for C10. In the demo system the open routine of the `/tmp`
mount returns null: `opendir("/tmp/x")` returns null and writes no line. Its
close routine returns `-5`: `closedir` returns `-5` and writes no line. And when
the resolver fails for `logs`, the text of the one line written does not hold
the path. -/
theorem failure_without_diagnostic :
    (opendir demo_env "/tmp/x" demo_init =
        .ret NULL { world := demo_init.world,
                    trace := demo_init.trace ++ [.call_get_mountpoint_id "/tmp/x",
                      .read_mountpoint 3, .read_mountpoint 3, .call_opendir_f 5 "/tmp/x"] } ∧
      List.filter Event.is_diagnostic [.call_get_mountpoint_id "/tmp/x",
        .read_mountpoint 3, .read_mountpoint 3, .call_opendir_f 5 "/tmp/x"] = []) ∧
    (closedir demo_env 1 (demo_open 3 "/tmp/x") =
        .ret (-5) { world := (demo_open 3 "/tmp/x").world,
                    trace := (demo_open 3 "/tmp/x").trace ++
                      [.read_mountpoint 3, .read_mountpoint 3, .call_closedir_f 6 1] } ∧
      (-5 : Int) < 0 ∧
      List.filter Event.is_diagnostic
        [.read_mountpoint 3, .read_mountpoint 3, .call_closedir_f 6 1] = []) ∧
    (opendir demo_env_no_cwd "logs" demo_init =
        .ret NULL { world := demo_init.world,
                    trace := demo_init.trace ++
                      [.call_get_absolute_path "logs", .dbg_print msg_no_absolute] } ∧
      ¬ ("logs".data <:+: msg_no_absolute.data)) := by
  refine ⟨⟨rfl, by decide⟩, ⟨rfl, by decide, by decide⟩, ⟨rfl, by decide⟩⟩

/-- C10, amended: a call of `opendir` that returns null, or of `closedir` that
returns a negative value, either called a backend routine (which returned null,
or that negative value) and then wrote no line, or called no backend routine
and wrote exactly one line. That line is tied to the cause of the failure:
the text `Cannot get the absolute path.` handed to `dbg_print` exactly when the
resolver failed; `opendir: cannot open directory 'abs':Cannot find mount-point`
exactly when the lookup of the canonical path `abs` was negative;
`opendir: cannot open directory 'abs':No opendir function` exactly when the
selected record has no open routine; `closedir: cannot close directory
:Directory pointer is not valid` exactly for the null handle; `closedir: cannot
close directory 'path':No closedir function`, with the path of the handle,
exactly when the selected record has no close routine. -/
theorem dispatch_failure_diagnostics (env : Env) :
    (∀ (path : String) (s s1 : State), opendir env path s = .ret NULL s1 →
      path.utf8ByteSize < env.PATH_MAX ∧
      ∃ evs : List Event, s1.trace = s.trace ++ evs ∧
        ((∃ (abs : String) (mp : mountpoint_t),
            canonical env s.world path = some abs ∧
            mountpoint_at s.world (env.get_mountpoint_id s.world abs) = some mp ∧
            mp.dir_op.opendir_f ≠ NULL ∧
            (env.opendir_code mp.dir_op.opendir_f abs s.world).1 = NULL ∧
            evs.filter Event.is_backend_call = [.call_opendir_f mp.dir_op.opendir_f abs] ∧
            evs.filter Event.is_diagnostic = []) ∨
         (evs.filter Event.is_backend_call = [] ∧
           ((char0 path ≠ '/' ∧ env.get_absolute_path s.world path = none ∧
              evs.filter Event.is_diagnostic =
                [.dbg_print "Cannot get the absolute path.\n"]) ∨
            ∃ abs : String, canonical env s.world path = some abs ∧
              ((env.get_mountpoint_id s.world abs < 0 ∧
                evs.filter Event.is_diagnostic =
                  [.printf ("opendir: cannot open directory '" ++ abs ++
                    "':Cannot find mount-point\n")]) ∨
               (∃ mp : mountpoint_t, 0 ≤ env.get_mountpoint_id s.world abs ∧
                mountpoint_at s.world (env.get_mountpoint_id s.world abs) = some mp ∧
                mp.dir_op.opendir_f = NULL ∧
                evs.filter Event.is_diagnostic =
                  [.printf ("opendir: cannot open directory '" ++ abs ++
                    "':No opendir function\n")])))))) ∧
    (∀ (dirp : Ptr) (s : State) (r : Int) (s1 : State),
      closedir env dirp s = .ret r s1 → r < 0 →
      ∃ evs : List Event, s1.trace = s.trace ++ evs ∧
        ((∃ (d : DIR) (mp : mountpoint_t), dirp ≠ NULL ∧ load s.world dirp = some d ∧
            mountpoint_at s.world d.fd = some mp ∧ mp.dir_op.closedir_f ≠ NULL ∧
            r = (env.closedir_code mp.dir_op.closedir_f dirp s.world).1 ∧
            evs.filter Event.is_backend_call = [.call_closedir_f mp.dir_op.closedir_f dirp] ∧
            evs.filter Event.is_diagnostic = []) ∨
         (evs.filter Event.is_backend_call = [] ∧ r = -1 ∧
           ((dirp = NULL ∧
              evs.filter Event.is_diagnostic =
                [.printf "closedir: cannot close directory :Directory pointer is not valid\n"]) ∨
            ∃ (d : DIR) (mp : mountpoint_t), dirp ≠ NULL ∧ load s.world dirp = some d ∧
              mountpoint_at s.world d.fd = some mp ∧ mp.dir_op.closedir_f = NULL ∧
              evs.filter Event.is_diagnostic =
                [.printf ("closedir: cannot close directory '" ++ d.path ++
                  "':No closedir function\n")])))) := by
  refine ⟨?_, ?_⟩
  · intro path s s1 hopen
    rcases opendir_cases env path s with ⟨h, _⟩ | ⟨hfit, ⟨hc, h⟩ | ⟨abs, hc, _, ⟨hneg, h⟩ |
      ⟨_, _, h⟩ | ⟨mp, h0, hmp, ⟨hf, h⟩ | ⟨hf, hr, h⟩ | ⟨_, _, _, h⟩ | ⟨d, hf, hr, hl, h⟩⟩⟩⟩
    · rw [h] at hopen; simp at hopen
    · rw [h] at hopen; simp only [Outcome.ret.injEq, true_and] at hopen; subst hopen
      have hrel : char0 path ≠ '/' := by
        intro h1
        simp [canonical, h1] at hc
      have hfail : env.get_absolute_path s.world path = none := by
        simpa [canonical, hrel] using hc
      refine ⟨hfit, _, rfl, Or.inr ⟨?_, Or.inl ⟨hrel, hfail, ?_⟩⟩⟩
      · rw [filter_backend_call_resolver_events]; simp [Event.is_backend_call]
      · rw [filter_diagnostic_resolver_events, ← msg_no_absolute_text]
        simp [Event.is_diagnostic]
    · rw [h] at hopen; simp only [Outcome.ret.injEq, true_and] at hopen; subst hopen
      refine ⟨hfit, _, rfl, Or.inr ⟨?_, Or.inr ⟨abs, hc, Or.inl ⟨hneg, ?_⟩⟩⟩⟩
      · rw [filter_backend_call_resolver_events]; simp [Event.is_backend_call]
      · rw [filter_diagnostic_resolver_events, ← msg_no_mount_text]
        simp [Event.is_diagnostic]
    · rw [h] at hopen; simp at hopen
    · rw [h] at hopen; simp only [Outcome.ret.injEq, true_and] at hopen; subst hopen
      refine ⟨hfit, _, rfl, Or.inr ⟨?_, Or.inr ⟨abs, hc, Or.inr ⟨mp, h0, hmp, hf, ?_⟩⟩⟩⟩
      · rw [filter_backend_call_resolver_events]; simp [Event.is_backend_call]
      · rw [filter_diagnostic_resolver_events, ← msg_no_opendir_text]
        simp [Event.is_diagnostic]
    · rw [h] at hopen; simp only [Outcome.ret.injEq, true_and] at hopen; subst hopen
      refine ⟨hfit, _, rfl, Or.inl ⟨abs, mp, hc, hmp, hf, hr, ?_, ?_⟩⟩
      · rw [filter_backend_call_resolver_events]; simp [Event.is_backend_call]
      · rw [filter_diagnostic_resolver_events]; simp [Event.is_diagnostic]
    · rw [h] at hopen; simp at hopen
    · rw [h] at hopen; simp only [Outcome.ret.injEq] at hopen
      exact absurd hopen.1 hr
  · intro dirp s r s1 hclose hneg
    rcases closedir_cases env dirp s with ⟨hp, h⟩ | ⟨_, _, h⟩ |
      ⟨d, hp, hl, ⟨_, h⟩ | ⟨mp, hmp, ⟨hf, h⟩ | ⟨hf, h⟩⟩⟩
    · rw [h] at hclose; simp only [Outcome.ret.injEq] at hclose
      obtain ⟨hr, hs⟩ := hclose; subst hs
      refine ⟨_, rfl, Or.inr ⟨by simp [Event.is_backend_call], hr.symm, Or.inl ⟨hp, ?_⟩⟩⟩
      rw [← msg_bad_dirp_text]; simp [Event.is_diagnostic]
    · rw [h] at hclose; simp at hclose
    · rw [h] at hclose; simp at hclose
    · rw [h] at hclose; simp only [Outcome.ret.injEq] at hclose
      obtain ⟨hr, hs⟩ := hclose; subst hs
      refine ⟨_, rfl, Or.inr ⟨by simp [Event.is_backend_call], hr.symm,
        Or.inr ⟨d, mp, hp, hl, hmp, hf, ?_⟩⟩⟩
      rw [← msg_no_closedir_text]; simp [Event.is_diagnostic]
    · rw [h] at hclose; simp only [Outcome.ret.injEq] at hclose
      obtain ⟨hr, hs⟩ := hclose; subst hs
      exact ⟨_, rfl, Or.inl ⟨d, mp, hp, hl, hmp, hf, hr.symm, by simp [Event.is_backend_call],
        by simp [Event.is_diagnostic]⟩⟩

/-- Witness for C10 (amended): `opendir("/proc/1")` in the demo system returns
null; the theorem then gives the one line for a missing open routine. -/
theorem dispatch_failure_diagnostics_witness :
    opendir demo_env "/proc/1" demo_init =
        .ret NULL { world := demo_init.world,
                    trace := [.call_get_mountpoint_id "/proc/1", .read_mountpoint 2,
                      .printf (msg_no_opendir "/proc/1")] } ∧
    "/proc/1".utf8ByteSize < demo_env.PATH_MAX ∧
    ∃ evs : List Event,
      ([.call_get_mountpoint_id "/proc/1", .read_mountpoint 2,
          .printf (msg_no_opendir "/proc/1")] : List Event) = demo_init.trace ++ evs ∧
        ((∃ (abs : String) (mp : mountpoint_t),
            canonical demo_env demo_init.world "/proc/1" = some abs ∧
            mountpoint_at demo_init.world (demo_env.get_mountpoint_id demo_init.world abs) =
              some mp ∧
            mp.dir_op.opendir_f ≠ NULL ∧
            (demo_env.opendir_code mp.dir_op.opendir_f abs demo_init.world).1 = NULL ∧
            evs.filter Event.is_backend_call = [.call_opendir_f mp.dir_op.opendir_f abs] ∧
            evs.filter Event.is_diagnostic = []) ∨
         (evs.filter Event.is_backend_call = [] ∧
           ((char0 "/proc/1" ≠ '/' ∧ demo_env.get_absolute_path demo_init.world "/proc/1" = none ∧
              evs.filter Event.is_diagnostic =
                [.dbg_print "Cannot get the absolute path.\n"]) ∨
            ∃ abs : String, canonical demo_env demo_init.world "/proc/1" = some abs ∧
              ((demo_env.get_mountpoint_id demo_init.world abs < 0 ∧
                evs.filter Event.is_diagnostic =
                  [.printf ("opendir: cannot open directory '" ++ abs ++
                    "':Cannot find mount-point\n")]) ∨
               (∃ mp : mountpoint_t, 0 ≤ demo_env.get_mountpoint_id demo_init.world abs ∧
                mountpoint_at demo_init.world (demo_env.get_mountpoint_id demo_init.world abs) =
                  some mp ∧
                mp.dir_op.opendir_f = NULL ∧
                evs.filter Event.is_diagnostic =
                  [.printf ("opendir: cannot open directory '" ++ abs ++
                    "':No opendir function\n")]))))) :=
  ⟨rfl, (dispatch_failure_diagnostics demo_env).1 "/proc/1" demo_init
    { world := demo_init.world,
      trace := [.call_get_mountpoint_id "/proc/1", .read_mountpoint 2,
        .printf (msg_no_opendir "/proc/1")] } rfl⟩

end MentOS
